import Mathlib

/-!
Shallow embedding of the data-management module of the rubrik-sdk-for-go
repository (src/rubrikcdm/data_management.go), together with proofs about
the claims on its behavior.

Go values of static type `interface{}` (in particular JSON-decoded response
trees) are modelled by the inductive `GoVal`; Go's `encoding/json` decodes
numbers into `float64`, modelled as `GoVal.vFloat` over ℚ, while Go integer
constants (such as the untyped literal `0` in `total == 0`) are `GoVal.vInt`.
Interface equality in Go compares dynamic types first, so `vFloat 0` is not
equal to `vInt 0`, exactly as in the source.

Each SDK function is a Lean function of an explicit transport oracle; it
returns the Go result (`Outcome`: a value, a returned `error`, or a runtime
panic from a failed type assertion / out-of-range index) paired with the
ordered list of transport requests it issued.
-/

namespace RubrikCDM

/-- A Go `interface{}` value as produced by literals and by JSON decoding. -/
inductive GoVal : Type where
  | vNull : GoVal
  | vBool : Bool → GoVal
  | vInt : Int → GoVal
  | vFloat : ℚ → GoVal
  | vStr : String → GoVal
  | vArr : List GoVal → GoVal
  | vMap : List (String × GoVal) → GoVal

/-- The outcome of a Go call returning `(T, error)`: a value with nil error,
a non-nil error, or a runtime panic (failed type assertion, index range). -/
inductive Outcome (α : Type) : Type where
  | ok : α → Outcome α
  | err : String → Outcome α
  | panic : String → Outcome α

/-- Which transport primitive was invoked. -/
inductive Method : Type where
  | get : Method
  | post : Method
  | patch : Method
deriving DecidableEq

/-- One call to the transport collaborator: primitive, API version namespace,
endpoint path, request body (`vNull` for GET), and the optional explicit
timeout forwarded to the primitive (`none` when the variadic timeout was
omitted at the call site). -/
structure Request : Type where
  method : Method
  version : String
  endpoint : String
  body : GoVal
  timeout : Option Int

/-- Modelled from the spec: the HTTP transport collaborator (not part of the
excerpt under src/). Per the spec it performs authenticated GET/POST/PATCH
against versioned paths, decodes JSON responses into generic key/value
structures and surfaces HTTP and decode failures: we model it as an oracle
from a request record to either a decoded JSON tree or an error. -/
def Transport : Type := Request → Except String GoVal

/-- Go map indexing on a decoded JSON object: a missing key yields the zero
value of `interface{}`, namely nil. -/
def goIndex : List (String × GoVal) → String → GoVal
  | [], _ => GoVal.vNull
  | (k, v) :: rest, key => if k = key then v else goIndex rest key

/-- Modelled from the spec: the variadic-timeout helper of the transport
package (not in the excerpt). The timeout is "an optional per-call override;
defaults to a base value"; the base value is 15, as witnessed by the
source guard `if httpTimeout == 15` that upgrades the default to 180. -/
def httpTimeout : List Int → Int
  | [] => 15
  | t :: _ => t

/-- The slow-operation override used by PauseSnapshot, ResumeSnapshot,
OnDemandSnapshotVM and OnDemandSnapshotPhysical: after applying the
variadic helper, a value equal to the base default 15 is replaced by 180. -/
def overrideTimeout180 (timeout : List Int) : Int :=
  let t := httpTimeout timeout
  if t = 15 then 180 else t

/-- Convenience constructor for a GET request record. -/
def getReq (version endpoint : String) (timeout : Option Int) : Request :=
  ⟨Method.get, version, endpoint, GoVal.vNull, timeout⟩

/-- Convenience constructor for a POST request record. -/
def postReq (version endpoint : String) (body : GoVal) (timeout : Option Int) : Request :=
  ⟨Method.post, version, endpoint, body, timeout⟩

/-- Convenience constructor for a PATCH request record. -/
def patchReq (version endpoint : String) (body : GoVal) (timeout : Option Int) : Request :=
  ⟨Method.patch, version, endpoint, body, timeout⟩

/-- The usage-error message for an invalid objectType in ObjectID. -/
def invalidObjectTypeMsg : String :=
  "The 'objectType' must be 'vmware', 'sla', 'vmwareHost', 'physicalHost', 'filesetTemplate', or 'managedVolume'"

/-- The not-found error message of ObjectID. -/
def notFoundMsg (objectType objectName : String) : String :=
  "The " ++ objectType ++ " object '" ++ objectName ++ "' was not found on the Rubrik cluster"

/-- The ambiguity error message of ObjectID. -/
def ambiguousMsg (objectType objectName : String) : String :=
  "Multiple " ++ objectType ++ " objects named '" ++ objectName ++ "' were found on the Rubrik cluster. Unable to return a specific object id"

/-- The valid objectType enumeration of ObjectID (the Go literal map with
six keys set to true; indexing any other key yields the zero value false). -/
def validObjectType (objectType : String) : Bool :=
  objectType == "vmware" || objectType == "sla" || objectType == "vmwareHost" ||
    objectType == "physicalHost" || objectType == "filesetTemplate" ||
    objectType == "managedVolume"

/-- The switch of ObjectID that picks the API version and the list-query
endpoint per objectType, including the hostOS validation of the
filesetTemplate case (only the first variadic hostOS value is consulted). -/
def objectIDEndpoint (objectName objectType : String) (hostOS : List String) :
    Except String (String × String) :=
  match objectType, hostOS with
  | "vmware", _ =>
      Except.ok ("v1", "/vmware/vm?primary_cluster_id=local&is_relic=false&name=" ++ objectName)
  | "sla", _ =>
      Except.ok ("v1", "/sla_domain?primary_cluster_id=local&name=" ++ objectName)
  | "vmwareHost", _ =>
      Except.ok ("v1", "/vmware/host?primary_cluster_id=local")
  | "physicalHost", _ =>
      Except.ok ("v1", "/host?primary_cluster_id=local&hostname=" ++ objectName)
  | "filesetTemplate", hostOperatingSystem :: _ =>
      if hostOperatingSystem = "Linux" ∨ hostOperatingSystem = "Windows" then
        Except.ok ("v1", "/fileset_template?primary_cluster_id=local&operating_system_type=" ++
          hostOperatingSystem ++ "&name=" ++ objectName)
      else
        Except.error "The hostOS must be either 'Linux' or 'Windows'"
  | "filesetTemplate", [] =>
      Except.error "You must provide the Fileset Tempalte OS type"
  | "managedVolume", _ =>
      Except.ok ("internal", "/managed_volume?is_relic=false&primary_cluster_id=local&name=" ++ objectName)
  | _, _ => Except.ok ("", "")

/-- The name field the filter of ObjectID compares: hostname for physical
hosts, name for every other objectType. -/
def nameField (objectType : String) : String :=
  if objectType = "physicalHost" then "hostname" else "name"

/-- The filtering loop of ObjectID: collect the id of every entry whose name
field equals objectName. A non-map entry, a non-string name field, or (for a
matching entry) a non-string id is a failed type assertion, hence a panic. -/
def collectIDs (nameValue objectName : String) : List GoVal → Outcome (List String)
  | [] => Outcome.ok []
  | v :: rest =>
    match v with
    | GoVal.vMap m =>
      match goIndex m nameValue with
      | GoVal.vStr s =>
        if s = objectName then
          match goIndex m "id" with
          | GoVal.vStr idv =>
            match collectIDs nameValue objectName rest with
            | Outcome.ok ids => Outcome.ok (idv :: ids)
            | Outcome.err e => Outcome.err e
            | Outcome.panic p => Outcome.panic p
          | _ => Outcome.panic "interface conversion"
        else collectIDs nameValue objectName rest
      | _ => Outcome.panic "interface conversion"
    | _ => Outcome.panic "interface conversion"

/-- The post-query logic of ObjectID (source lines 81-109): the interface
comparison total == 0 is true only for a dynamic Go int; otherwise total is
asserted to float64 and compared with 0; a positive count triggers the
exact-name filter, and both a zero total and zero surviving matches yield
the not-found error, multiple matches the ambiguity error. -/
def objectIDFilter (resp : GoVal) (objectName objectType : String) : Outcome String :=
  match resp with
  | GoVal.vMap m =>
    match goIndex m "total" with
    | GoVal.vInt 0 => Outcome.err (notFoundMsg objectType objectName)
    | GoVal.vFloat q =>
      if 0 < q then
        match goIndex m "data" with
        | GoVal.vArr entries =>
          match collectIDs (nameField objectType) objectName entries with
          | Outcome.ok objectIDs =>
            if 1 < objectIDs.length then Outcome.err (ambiguousMsg objectType objectName)
            else
              match objectIDs with
              | [] => Outcome.err (notFoundMsg objectType objectName)
              | idv :: _ => Outcome.ok idv
          | Outcome.err e => Outcome.err e
          | Outcome.panic p => Outcome.panic p
        | _ => Outcome.panic "interface conversion"
      else Outcome.err (notFoundMsg objectType objectName)
    | _ => Outcome.panic "interface conversion"
  | _ => Outcome.panic "interface conversion"

/-- ObjectID: validate the objectType, build the list query, issue it through
the transport and filter the result down to a single identifier. The second
component is the ordered list of transport requests issued. -/
def objectID (T : Transport) (objectName objectType : String) (hostOS : List String) :
    Outcome String × List Request :=
  if validObjectType objectType = false then
    (Outcome.err invalidObjectTypeMsg, [])
  else
    match objectIDEndpoint objectName objectType hostOS with
    | Except.error e => (Outcome.err e, [])
    | Except.ok (ver, ep) =>
      match T (getReq ver ep none) with
      | Except.error e => (Outcome.err e, [getReq ver ep none])
      | Except.ok resp => (objectIDFilter resp objectName objectType, [getReq ver ep none])

/-- The usage-error message of the operations that only support vmware. -/
def onlyVmwareMsg : String := "The 'objectType' must be 'vmware'"

/-- The no-op confirmation message of AssignSLA. -/
def assignSlaNoChangeMsg (objectName slaName : String) : String :=
  "No change required. The vSphere VM '" ++ objectName ++ "' is already assigned to the '" ++
    slaName ++ "' SLA Domain."

/-- AssignSLA (source lines 119-177). The source's default branch declares a
fresh slaID with a short variable declaration inside the switch case, which
shadows the outer slaID: the resolved identifier is discarded there and the
outer slaID keeps its zero value, the empty string, while the resolution
error is still checked and propagated. -/
def assignSLA (T : Transport) (objectName objectType slaName : String) (timeout : List Int) :
    Outcome GoVal × List Request :=
  let t := httpTimeout timeout
  if (objectType == "vmware") = false then
    (Outcome.err onlyVmwareMsg, [])
  else
    let step1 : Outcome String × List Request :=
      if slaName = "do not protect" then (Outcome.ok "UNPROTECTED", [])
      else if slaName = "clear" then (Outcome.ok "INHERIT", [])
      else
        match objectID T slaName "sla" [] with
        | (Outcome.ok _, tr) => (Outcome.ok "", tr)
        | (Outcome.err e, tr) => (Outcome.err e, tr)
        | (Outcome.panic p, tr) => (Outcome.panic p, tr)
    match step1 with
    | (Outcome.err e, tr1) => (Outcome.err e, tr1)
    | (Outcome.panic p, tr1) => (Outcome.panic p, tr1)
    | (Outcome.ok slaID, tr1) =>
      match objectID T objectName "vmware" [] with
      | (Outcome.err e, tr2) => (Outcome.err e, tr1 ++ tr2)
      | (Outcome.panic p, tr2) => (Outcome.panic p, tr1 ++ tr2)
      | (Outcome.ok vmID, tr2) =>
        let sreq : Request := getReq "v1" ("/vmware/vm/" ++ vmID) (some t)
        match T sreq with
        | Except.error e => (Outcome.err e, tr1 ++ tr2 ++ [sreq])
        | Except.ok vmSummary =>
          match vmSummary with
          | GoVal.vMap m =>
            let fld := if slaID = "INHERIT" then "configuredSlaDomainId" else "effectiveSlaDomainId"
            match goIndex m fld with
            | GoVal.vStr currentSLAID =>
              if slaID = currentSLAID then
                (Outcome.ok (GoVal.vStr (assignSlaNoChangeMsg objectName slaName)),
                  tr1 ++ tr2 ++ [sreq])
              else
                let preq : Request := postReq "internal" ("/sla_domain/" ++ slaID ++ "/assign")
                  (GoVal.vMap [("managedIds", GoVal.vArr [GoVal.vStr vmID])]) (some t)
                match T preq with
                | Except.error e => (Outcome.err e, tr1 ++ tr2 ++ [sreq, preq])
                | Except.ok r => (Outcome.ok r, tr1 ++ tr2 ++ [sreq, preq])
            | _ => (Outcome.panic "interface conversion", tr1 ++ tr2 ++ [sreq])
          | _ => (Outcome.panic "interface conversion", tr1 ++ tr2 ++ [sreq])

/-- The no-op confirmation message of BeginManagedVolumeSnapshot. -/
def beginMVNoChangeMsg (name : String) : String :=
  "No change required. The Managed Volume '" ++ name ++ "' is already in a writeable state."

/-- BeginManagedVolumeSnapshot (source lines 186-212): resolve the volume,
fetch its summary; if already writable return the no-op message, otherwise
POST begin_snapshot with an empty body and return the raw response. -/
def beginManagedVolumeSnapshot (T : Transport) (name : String) (timeout : List Int) :
    Outcome GoVal × List Request :=
  let t := httpTimeout timeout
  match objectID T name "managedVolume" [] with
  | (Outcome.err e, tr) => (Outcome.err e, tr)
  | (Outcome.panic p, tr) => (Outcome.panic p, tr)
  | (Outcome.ok mvID, tr) =>
    let sreq : Request := getReq "internal" ("/managed_volume/" ++ mvID) (some t)
    match T sreq with
    | Except.error e => (Outcome.err e, tr ++ [sreq])
    | Except.ok summary =>
      match summary with
      | GoVal.vMap m =>
        match goIndex m "isWritable" with
        | GoVal.vBool w =>
          if w then
            (Outcome.ok (GoVal.vStr (beginMVNoChangeMsg name)), tr ++ [sreq])
          else
            let preq : Request := postReq "internal" ("/managed_volume/" ++ mvID ++ "/begin_snapshot")
              (GoVal.vMap []) (some t)
            match T preq with
            | Except.error e => (Outcome.err e, tr ++ [sreq, preq])
            | Except.ok r => (Outcome.ok r, tr ++ [sreq, preq])
        | _ => (Outcome.panic "interface conversion", tr ++ [sreq])
      | _ => (Outcome.panic "interface conversion", tr ++ [sreq])

/-- The no-op confirmation message of EndManagedVolumeSnapshot. -/
def endMVNoChangeMsg (name : String) : String :=
  "No change required. The Managed Volume '" ++ name ++ "' is already in a read-only state."

/-- EndManagedVolumeSnapshot (source lines 220-255): resolve the volume,
fetch its summary; if already read-only return the no-op message, otherwise
resolve the SLA unless slaName is the literal current and POST end_snapshot.
The source returns the pair (apiRequest, nil) without checking the error of
the Post call, so a transport failure there becomes a nil response with a
nil error instead of a propagated error. -/
def endManagedVolumeSnapshot (T : Transport) (name slaName : String) (timeout : List Int) :
    Outcome GoVal × List Request :=
  let t := httpTimeout timeout
  match objectID T name "managedVolume" [] with
  | (Outcome.err e, tr) => (Outcome.err e, tr)
  | (Outcome.panic p, tr) => (Outcome.panic p, tr)
  | (Outcome.ok mvID, tr) =>
    let sreq : Request := getReq "internal" ("/managed_volume/" ++ mvID) (some t)
    match T sreq with
    | Except.error e => (Outcome.err e, tr ++ [sreq])
    | Except.ok summary =>
      match summary with
      | GoVal.vMap m =>
        match goIndex m "isWritable" with
        | GoVal.vBool w =>
          if w = false then
            (Outcome.ok (GoVal.vStr (endMVNoChangeMsg name)), tr ++ [sreq])
          else
            let step : Outcome GoVal × List Request :=
              if slaName = "current" then (Outcome.ok (GoVal.vMap []), [])
              else
                match objectID T slaName "sla" [] with
                | (Outcome.ok slaID, tr2) =>
                  (Outcome.ok (GoVal.vMap [("retentionConfig",
                    GoVal.vMap [("slaId", GoVal.vStr slaID)])]), tr2)
                | (Outcome.err e, tr2) => (Outcome.err e, tr2)
                | (Outcome.panic p, tr2) => (Outcome.panic p, tr2)
            match step with
            | (Outcome.err e, tr2) => (Outcome.err e, tr ++ [sreq] ++ tr2)
            | (Outcome.panic p, tr2) => (Outcome.panic p, tr ++ [sreq] ++ tr2)
            | (Outcome.ok config, tr2) =>
              let preq : Request := postReq "internal" ("/managed_volume/" ++ mvID ++ "/end_snapshot")
                config (some t)
              match T preq with
              | Except.error _ => (Outcome.ok GoVal.vNull, tr ++ [sreq] ++ tr2 ++ [preq])
              | Except.ok r => (Outcome.ok r, tr ++ [sreq] ++ tr2 ++ [preq])
        | _ => (Outcome.panic "interface conversion", tr ++ [sreq])
      | _ => (Outcome.panic "interface conversion", tr ++ [sreq])

/-- The no-op confirmation message of PauseSnapshot. -/
def pauseNoChangeMsg (objectName objectType : String) : String :=
  "No change required. The '" ++ objectName ++ "' '" ++ objectType ++ "' is already paused."

/-- PauseSnapshot (source lines 304-350): upgrade the default timeout to
180, resolve the VM, fetch its summary; if the nested blackout flag is
already active return the no-op message, otherwise PATCH the VM with
isVmPaused set to true and return the raw response. -/
def pauseSnapshot (T : Transport) (objectName objectType : String) (timeout : List Int) :
    Outcome GoVal × List Request :=
  let t := overrideTimeout180 timeout
  if (objectType == "vmware") = false then
    (Outcome.err onlyVmwareMsg, [])
  else
    match objectID T objectName "vmware" [] with
    | (Outcome.err e, tr) => (Outcome.err e, tr)
    | (Outcome.panic p, tr) => (Outcome.panic p, tr)
    | (Outcome.ok vmID, tr) =>
      let sreq : Request := getReq "v1" ("/vmware/vm/" ++ vmID) (some t)
      match T sreq with
      | Except.error e => (Outcome.err e, tr ++ [sreq])
      | Except.ok vmSummary =>
        match vmSummary with
        | GoVal.vMap m =>
          match goIndex m "blackoutWindowStatus" with
          | GoVal.vMap bm =>
            match goIndex bm "isSnappableBlackoutActive" with
            | GoVal.vBool b =>
              if b then
                (Outcome.ok (GoVal.vStr (pauseNoChangeMsg objectName objectType)), tr ++ [sreq])
              else
                let preq : Request := patchReq "v1" ("/vmware/vm/" ++ vmID)
                  (GoVal.vMap [("isVmPaused", GoVal.vBool true)]) (some t)
                match T preq with
                | Except.error e => (Outcome.err e, tr ++ [sreq, preq])
                | Except.ok r => (Outcome.ok r, tr ++ [sreq, preq])
            | _ => (Outcome.panic "interface conversion", tr ++ [sreq])
          | _ => (Outcome.panic "interface conversion", tr ++ [sreq])
        | _ => (Outcome.panic "interface conversion", tr ++ [sreq])

/-- The no-op confirmation message of ResumeSnapshot. -/
def resumeNoChangeMsg (objectName objectType : String) : String :=
  "No change required. The '" ++ objectName ++ "' '" ++ objectType ++ "' is currently not paused."

/-- ResumeSnapshot (source lines 358-404): the mirror of PauseSnapshot with
the no-op condition inverted and isVmPaused set to false. -/
def resumeSnapshot (T : Transport) (objectName objectType : String) (timeout : List Int) :
    Outcome GoVal × List Request :=
  let t := overrideTimeout180 timeout
  if (objectType == "vmware") = false then
    (Outcome.err onlyVmwareMsg, [])
  else
    match objectID T objectName "vmware" [] with
    | (Outcome.err e, tr) => (Outcome.err e, tr)
    | (Outcome.panic p, tr) => (Outcome.panic p, tr)
    | (Outcome.ok vmID, tr) =>
      let sreq : Request := getReq "v1" ("/vmware/vm/" ++ vmID) (some t)
      match T sreq with
      | Except.error e => (Outcome.err e, tr ++ [sreq])
      | Except.ok vmSummary =>
        match vmSummary with
        | GoVal.vMap m =>
          match goIndex m "blackoutWindowStatus" with
          | GoVal.vMap bm =>
            match goIndex bm "isSnappableBlackoutActive" with
            | GoVal.vBool b =>
              if b = false then
                (Outcome.ok (GoVal.vStr (resumeNoChangeMsg objectName objectType)), tr ++ [sreq])
              else
                let preq : Request := patchReq "v1" ("/vmware/vm/" ++ vmID)
                  (GoVal.vMap [("isVmPaused", GoVal.vBool false)]) (some t)
                match T preq with
                | Except.error e => (Outcome.err e, tr ++ [sreq, preq])
                | Except.ok r => (Outcome.ok r, tr ++ [sreq, preq])
            | _ => (Outcome.panic "interface conversion", tr ++ [sreq])
          | _ => (Outcome.panic "interface conversion", tr ++ [sreq])
        | _ => (Outcome.panic "interface conversion", tr ++ [sreq])

/-- The extraction of the first link's href from a snapshot-trigger
response: links must be a non-empty array of objects whose href is a
string; any shape violation is a panic, an empty array an index panic. -/
def firstLinkHref (resp : GoVal) : Outcome String :=
  match resp with
  | GoVal.vMap rm =>
    match goIndex rm "links" with
    | GoVal.vArr [] => Outcome.panic "index out of range"
    | GoVal.vArr (l0 :: _) =>
      match l0 with
      | GoVal.vMap lm =>
        match goIndex lm "href" with
        | GoVal.vStr href => Outcome.ok href
        | _ => Outcome.panic "interface conversion"
      | _ => Outcome.panic "interface conversion"
    | _ => Outcome.panic "interface conversion"
  | _ => Outcome.panic "interface conversion"

/-- OnDemandSnapshotVM (source lines 411-462): upgrade the default timeout
to 180, resolve the VM; for slaName current fetch the full VM summary into
the interface variable slaID, otherwise store the resolved SLA identifier
string in it; then assert slaID to a map and read effectiveSlaDomainId (a
failed assertion, as happens whenever slaID holds the resolved string, is a
panic), POST the snapshot trigger and return the first link's href. The
summary fetch of the current branch passes no timeout. -/
def onDemandSnapshotVM (T : Transport) (objectName objectType slaName : String)
    (timeout : List Int) : Outcome String × List Request :=
  let t := overrideTimeout180 timeout
  if (objectType == "vmware") = false then
    (Outcome.err onlyVmwareMsg, [])
  else
    match objectID T objectName "vmware" [] with
    | (Outcome.err e, tr) => (Outcome.err e, tr)
    | (Outcome.panic p, tr) => (Outcome.panic p, tr)
    | (Outcome.ok vmID, tr) =>
      let step : Outcome GoVal × List Request :=
        if slaName = "current" then
          match T (getReq "v1" ("/vmware/vm/" ++ vmID) none) with
          | Except.error e => (Outcome.err e, [getReq "v1" ("/vmware/vm/" ++ vmID) none])
          | Except.ok v => (Outcome.ok v, [getReq "v1" ("/vmware/vm/" ++ vmID) none])
        else
          match objectID T slaName "sla" [] with
          | (Outcome.ok s, tr2) => (Outcome.ok (GoVal.vStr s), tr2)
          | (Outcome.err e, tr2) => (Outcome.err e, tr2)
          | (Outcome.panic p, tr2) => (Outcome.panic p, tr2)
      match step with
      | (Outcome.err e, tr2) => (Outcome.err e, tr ++ tr2)
      | (Outcome.panic p, tr2) => (Outcome.panic p, tr ++ tr2)
      | (Outcome.ok slaID, tr2) =>
        match slaID with
        | GoVal.vMap m =>
          match goIndex m "effectiveSlaDomainId" with
          | GoVal.vStr effID =>
            let preq : Request := postReq "v1" ("/vmware/vm/" ++ vmID ++ "/snapshot")
              (GoVal.vMap [("slaId", GoVal.vStr effID)]) (some t)
            match T preq with
            | Except.error e => (Outcome.err e, tr ++ tr2 ++ [preq])
            | Except.ok resp => (firstLinkHref resp, tr ++ tr2 ++ [preq])
          | _ => (Outcome.panic "interface conversion", tr ++ tr2)
        | _ => (Outcome.panic "interface conversion", tr ++ tr2)

/-- The usage-error message of OnDemandSnapshotPhysical, with the missing
closing quote after Windows exactly as in the source. -/
def invalidHostOSMsg : String := "The 'hostOS' must be 'Linux' or 'Windows"

/-- The fileset-not-assigned error message of OnDemandSnapshotPhysical. -/
def notAssignedMsg (hostName fileset : String) : String :=
  "The Physical Host '" ++ hostName ++ "' is not assigned to the '" ++ fileset ++ "' Fileset"

/-- OnDemandSnapshotPhysical (source lines 473-533): validate hostOS,
resolve the host and the OS-qualified fileset template, query the fileset
instances for that pair (without a timeout); the guard compares the decoded
total against the Go int 0, so a decoded JSON float64 zero falls through to
the indexing of data, which panics on an empty array; otherwise read the
first instance's id, resolve the SLA (the first instance's
effectiveSlaDomainId for slaName current), POST the snapshot trigger and
return the first link's href. -/
def onDemandSnapshotPhysical (T : Transport) (hostName slaName fileset hostOS : String)
    (timeout : List Int) : Outcome String × List Request :=
  let t := overrideTimeout180 timeout
  if (hostOS == "Linux" || hostOS == "Windows") = false then
    (Outcome.err invalidHostOSMsg, [])
  else
    match objectID T hostName "physicalHost" [] with
    | (Outcome.err e, tr) => (Outcome.err e, tr)
    | (Outcome.panic p, tr) => (Outcome.panic p, tr)
    | (Outcome.ok hostID, tr1) =>
      match objectID T fileset "filesetTemplate" [hostOS] with
      | (Outcome.err e, tr) => (Outcome.err e, tr1 ++ tr)
      | (Outcome.panic p, tr) => (Outcome.panic p, tr1 ++ tr)
      | (Outcome.ok templateID, tr2) =>
        let freq : Request := getReq "v1" ("/fileset?primary_cluster_id=local&host_id=" ++
          hostID ++ "&is_relic=false&template_id=" ++ templateID) none
        match T freq with
        | Except.error e => (Outcome.err e, tr1 ++ tr2 ++ [freq])
        | Except.ok filesetSummary =>
          match filesetSummary with
          | GoVal.vMap m =>
            match goIndex m "total" with
            | GoVal.vInt 0 => (Outcome.err (notAssignedMsg hostName fileset), tr1 ++ tr2 ++ [freq])
            | _ =>
              match goIndex m "data" with
              | GoVal.vArr [] => (Outcome.panic "index out of range", tr1 ++ tr2 ++ [freq])
              | GoVal.vArr (e0 :: _) =>
                match e0 with
                | GoVal.vMap em =>
                  match goIndex em "id" with
                  | GoVal.vStr filesetID =>
                    let step : Outcome String × List Request :=
                      if slaName = "current" then
                        match goIndex em "effectiveSlaDomainId" with
                        | GoVal.vStr s => (Outcome.ok s, [])
                        | _ => (Outcome.panic "interface conversion", [])
                      else objectID T slaName "sla" []
                    match step with
                    | (Outcome.err e, tr3) => (Outcome.err e, tr1 ++ tr2 ++ [freq] ++ tr3)
                    | (Outcome.panic p, tr3) => (Outcome.panic p, tr1 ++ tr2 ++ [freq] ++ tr3)
                    | (Outcome.ok slaID, tr3) =>
                      let preq : Request := postReq "v1" ("/fileset/" ++ filesetID ++ "/snapshot")
                        (GoVal.vMap [("slaId", GoVal.vStr slaID)]) (some t)
                      match T preq with
                      | Except.error e => (Outcome.err e, tr1 ++ tr2 ++ [freq] ++ tr3 ++ [preq])
                      | Except.ok resp => (firstLinkHref resp, tr1 ++ tr2 ++ [freq] ++ tr3 ++ [preq])
                  | _ => (Outcome.panic "interface conversion", tr1 ++ tr2 ++ [freq])
                | _ => (Outcome.panic "interface conversion", tr1 ++ tr2 ++ [freq])
              | _ => (Outcome.panic "interface conversion", tr1 ++ tr2 ++ [freq])
          | _ => (Outcome.panic "interface conversion", tr1 ++ tr2 ++ [freq])

/-- Whether a Go value is a string (a successful `.(string)` assertion). -/
def isStr : GoVal → Bool
  | GoVal.vStr _ => true
  | _ => false

/-- A well-formed list entry for the filter of ObjectID: a JSON object whose
relevant name field and id field are both strings. -/
def entryWF (nameValue : String) : GoVal → Bool
  | GoVal.vMap m => isStr (goIndex m nameValue) && isStr (goIndex m "id")
  | _ => false

/-- The ids of the entries whose name field equals objectName, in order. -/
def matchingIDs (nameValue objectName : String) : List GoVal → List String
  | [] => []
  | v :: rest =>
    match v with
    | GoVal.vMap m =>
      match goIndex m nameValue, goIndex m "id" with
      | GoVal.vStr s, GoVal.vStr idv =>
        if s = objectName then idv :: matchingIDs nameValue objectName rest
        else matchingIDs nameValue objectName rest
      | _, _ => matchingIDs nameValue objectName rest
    | _ => matchingIDs nameValue objectName rest

lemma isStr_iff {v : GoVal} : isStr v = true ↔ ∃ s, v = GoVal.vStr s := by
  cases v <;> simp [isStr]

lemma collectIDs_wf (nameValue objectName : String) (entries : List GoVal)
    (h : entries.all (entryWF nameValue) = true) :
    collectIDs nameValue objectName entries =
      Outcome.ok (matchingIDs nameValue objectName entries) := by
  induction entries with
  | nil => rfl
  | cons v rest ih =>
    rw [List.all_cons, Bool.and_eq_true] at h
    obtain ⟨hv, hrest⟩ := h
    have ih2 := ih hrest
    cases v with
    | vMap m =>
      simp only [entryWF, Bool.and_eq_true, isStr_iff] at hv
      obtain ⟨⟨s, hname⟩, ⟨idv, hid⟩⟩ := hv
      simp only [collectIDs, matchingIDs, hname, hid]
      by_cases hs : s = objectName
      · simp [hs, ih2]
      · simp [hs, ih2]
    | vNull => simp [entryWF] at hv
    | vBool b => simp [entryWF] at hv
    | vInt n => simp [entryWF] at hv
    | vFloat q => simp [entryWF] at hv
    | vStr s => simp [entryWF] at hv
    | vArr l => simp [entryWF] at hv

lemma objectIDFilter_eval (objectName objectType : String) (entries : List GoVal)
    (hwf : entries.all (entryWF (nameField objectType)) = true) :
    objectIDFilter
        (GoVal.vMap [("total", GoVal.vFloat (entries.length : ℚ)), ("data", GoVal.vArr entries)])
        objectName objectType =
      (match matchingIDs (nameField objectType) objectName entries with
       | [] => Outcome.err (notFoundMsg objectType objectName)
       | [i] => Outcome.ok i
       | _ :: _ :: _ => Outcome.err (ambiguousMsg objectType objectName)) := by
  have hc := collectIDs_wf (nameField objectType) objectName entries hwf
  cases entries with
  | nil =>
    have hneg : ¬ (0 : ℚ) < ((List.length ([] : List GoVal) : ℕ) : ℚ) := by norm_num
    simp only [objectIDFilter, goIndex, reduceIte, if_neg hneg, matchingIDs]
  | cons v rest =>
    have hpos : (0 : ℚ) < (((v :: rest).length : ℕ) : ℚ) := by
      have := Nat.succ_pos rest.length
      exact_mod_cast Nat.succ_pos rest.length
    simp only [objectIDFilter, goIndex, String.reduceEq, reduceIte, if_pos hpos]
    rw [hc]
    cases hm : matchingIDs (nameField objectType) objectName (v :: rest) with
    | nil => simp
    | cons i restIDs =>
      cases restIDs with
      | nil => simp
      | cons j restIDs2 =>
        have h2 : 1 < (i :: j :: restIDs2).length := by
          simp only [List.length_cons]
          omega
        simp [h2]

lemma objectID_eval (T : Transport) (objectName objectType : String) (hostOS : List String)
    (ver ep : String) (entries : List GoVal) (q : ℚ)
    (hvalid : validObjectType objectType = true)
    (hep : objectIDEndpoint objectName objectType hostOS = Except.ok (ver, ep))
    (hq : q = (entries.length : ℚ))
    (hT : T (getReq ver ep none) =
      Except.ok (GoVal.vMap [("total", GoVal.vFloat q), ("data", GoVal.vArr entries)]))
    (hwf : entries.all (entryWF (nameField objectType)) = true) :
    objectID T objectName objectType hostOS =
      ((match matchingIDs (nameField objectType) objectName entries with
        | [] => Outcome.err (notFoundMsg objectType objectName)
        | [i] => Outcome.ok i
        | _ :: _ :: _ => Outcome.err (ambiguousMsg objectType objectName)),
       [getReq ver ep none]) := by
  subst hq
  unfold objectID
  rw [hvalid]
  simp only [Bool.true_eq_false, if_false]
  rw [hep]
  simp only []
  rw [hT]
  simp only []
  rw [objectIDFilter_eval objectName objectType entries hwf]

lemma objectID_trace (T : Transport) (objectName objectType : String) (hostOS : List String) :
    ∀ req ∈ (objectID T objectName objectType hostOS).2,
      req.method = Method.get ∧ req.timeout = none := by
  unfold objectID
  by_cases h : validObjectType objectType = false
  · simp [h]
  · simp only [if_neg h]
    cases hep : objectIDEndpoint objectName objectType hostOS with
    | error e => simp
    | ok p =>
      obtain ⟨ver, ep⟩ := p
      cases hT : T (getReq ver ep none) with
      | error e =>
        intro req hreq
        simp [hT] at hreq
        subst hreq
        exact ⟨rfl, rfl⟩
      | ok resp =>
        intro req hreq
        simp [hT] at hreq
        subst hreq
        exact ⟨rfl, rfl⟩

lemma objectID_single (T : Transport) (objectName objectType ver ep idv : String)
    (hostOS : List String)
    (hvalid : validObjectType objectType = true)
    (hep : objectIDEndpoint objectName objectType hostOS = Except.ok (ver, ep))
    (hnid : nameField objectType ≠ "id")
    (hT : T (getReq ver ep none) = Except.ok (GoVal.vMap [("total", GoVal.vFloat 1),
      ("data", GoVal.vArr [GoVal.vMap
        [(nameField objectType, GoVal.vStr objectName), ("id", GoVal.vStr idv)]])])) :
    objectID T objectName objectType hostOS = (Outcome.ok idv, [getReq ver ep none]) := by
  have hg1 : goIndex [(nameField objectType, GoVal.vStr objectName), ("id", GoVal.vStr idv)]
      (nameField objectType) = GoVal.vStr objectName := by
    simp [goIndex]
  have hg2 : goIndex [(nameField objectType, GoVal.vStr objectName), ("id", GoVal.vStr idv)]
      "id" = GoVal.vStr idv := by
    simp [goIndex, hnid]
  have hwf : ([GoVal.vMap [(nameField objectType, GoVal.vStr objectName),
      ("id", GoVal.vStr idv)]]).all (entryWF (nameField objectType)) = true := by
    simp [entryWF, hg1, hg2, isStr]
  have heval := objectID_eval T objectName objectType hostOS ver ep
    [GoVal.vMap [(nameField objectType, GoVal.vStr objectName), ("id", GoVal.vStr idv)]] 1
    hvalid hep (by norm_num) hT hwf
  rw [heval]
  simp [matchingIDs, hg1, hg2]

/-- A list response holding exactly one entry, whose name field matches. -/
def singleMatchResp (nameValue objectName idv : String) : GoVal :=
  GoVal.vMap [("total", GoVal.vFloat 1),
    ("data", GoVal.vArr [GoVal.vMap [(nameValue, GoVal.vStr objectName), ("id", GoVal.vStr idv)]])]

/-- A concrete transport used to evaluate the operations on closed inputs.
The managed volumes mvw (writable), mvr (read-only) and mvfail (writable,
with a failing end_snapshot POST), the virtual machines vm1, vm2 (effective
SLA equal to the id of the SLA domain Gold), vmp (blackout active) and vma
(blackout inactive), the SLA domain Gold, the physical host host1 and the
Linux fileset template fs1 (whose fileset list for host1 is empty) exist;
every other request fails with a transport error. -/
def Tall : Transport := fun req =>
  match req.method with
  | Method.get =>
    if req.endpoint = "/managed_volume?is_relic=false&primary_cluster_id=local&name=mvw" then
      Except.ok (singleMatchResp "name" "mvw" "mv-w")
    else if req.endpoint = "/managed_volume?is_relic=false&primary_cluster_id=local&name=mvr" then
      Except.ok (singleMatchResp "name" "mvr" "mv-r")
    else if req.endpoint = "/managed_volume?is_relic=false&primary_cluster_id=local&name=mvfail" then
      Except.ok (singleMatchResp "name" "mvfail" "mv-f")
    else if req.endpoint = "/vmware/vm?primary_cluster_id=local&is_relic=false&name=vm1" then
      Except.ok (singleMatchResp "name" "vm1" "vm-1")
    else if req.endpoint = "/vmware/vm?primary_cluster_id=local&is_relic=false&name=vm2" then
      Except.ok (singleMatchResp "name" "vm2" "vm-2")
    else if req.endpoint = "/vmware/vm?primary_cluster_id=local&is_relic=false&name=vmp" then
      Except.ok (singleMatchResp "name" "vmp" "vm-p")
    else if req.endpoint = "/vmware/vm?primary_cluster_id=local&is_relic=false&name=vma" then
      Except.ok (singleMatchResp "name" "vma" "vm-a")
    else if req.endpoint = "/vmware/vm?primary_cluster_id=local&is_relic=false&name=vmsnap" then
      Except.ok (singleMatchResp "name" "vmsnap" "vm-s")
    else if req.endpoint = "/sla_domain?primary_cluster_id=local&name=Gold" then
      Except.ok (singleMatchResp "name" "Gold" "sla-42")
    else if req.endpoint = "/host?primary_cluster_id=local&hostname=host1" then
      Except.ok (singleMatchResp "hostname" "host1" "h-1")
    else if req.endpoint = "/host?primary_cluster_id=local&hostname=host2" then
      Except.ok (singleMatchResp "hostname" "host2" "h-2")
    else if req.endpoint = "/fileset_template?primary_cluster_id=local&operating_system_type=Linux&name=fs1" then
      Except.ok (singleMatchResp "name" "fs1" "ft-1")
    else if req.endpoint = "/fileset_template?primary_cluster_id=local&operating_system_type=Linux&name=fs2" then
      Except.ok (singleMatchResp "name" "fs2" "ft-2")
    else if req.endpoint = "/managed_volume/mv-w" then
      Except.ok (GoVal.vMap [("isWritable", GoVal.vBool true)])
    else if req.endpoint = "/managed_volume/mv-r" then
      Except.ok (GoVal.vMap [("isWritable", GoVal.vBool false)])
    else if req.endpoint = "/managed_volume/mv-f" then
      Except.ok (GoVal.vMap [("isWritable", GoVal.vBool true)])
    else if req.endpoint = "/vmware/vm/vm-1" then
      Except.ok (GoVal.vMap [("configuredSlaDomainId", GoVal.vStr "conf-1"),
        ("effectiveSlaDomainId", GoVal.vStr "eff-1")])
    else if req.endpoint = "/vmware/vm/vm-2" then
      Except.ok (GoVal.vMap [("configuredSlaDomainId", GoVal.vStr "conf-2"),
        ("effectiveSlaDomainId", GoVal.vStr "sla-42")])
    else if req.endpoint = "/vmware/vm/vm-p" then
      Except.ok (GoVal.vMap [("blackoutWindowStatus",
        GoVal.vMap [("isSnappableBlackoutActive", GoVal.vBool true)])])
    else if req.endpoint = "/vmware/vm/vm-a" then
      Except.ok (GoVal.vMap [("blackoutWindowStatus",
        GoVal.vMap [("isSnappableBlackoutActive", GoVal.vBool false)])])
    else if req.endpoint = "/fileset?primary_cluster_id=local&host_id=h-1&is_relic=false&template_id=ft-1" then
      Except.ok (GoVal.vMap [("total", GoVal.vFloat 0), ("data", GoVal.vArr [])])
    else if req.endpoint = "/vmware/vm/vm-s" then
      Except.ok (GoVal.vMap [("effectiveSlaDomainId", GoVal.vStr "eff-s")])
    else if req.endpoint = "/fileset?primary_cluster_id=local&host_id=h-2&is_relic=false&template_id=ft-2" then
      Except.ok (GoVal.vMap [("total", GoVal.vFloat 1), ("data", GoVal.vArr
        [GoVal.vMap [("id", GoVal.vStr "fsi-2"), ("effectiveSlaDomainId", GoVal.vStr "eff-2")]])])
    else Except.error "unexpected request"
  | Method.post =>
    if req.endpoint = "/managed_volume/mv-r/begin_snapshot" then
      Except.ok (GoVal.vStr "begun")
    else if req.endpoint = "/vmware/vm/vm-s/snapshot" then
      Except.ok (GoVal.vMap [("links", GoVal.vArr [GoVal.vMap [("href", GoVal.vStr "job-url-vm")]])])
    else if req.endpoint = "/fileset/fsi-2/snapshot" then
      Except.ok (GoVal.vMap [("links", GoVal.vArr [GoVal.vMap [("href", GoVal.vStr "job-url-fileset")]])])
    else if req.endpoint = "/managed_volume/mv-w/end_snapshot" then
      Except.ok (GoVal.vStr "ended")
    else if req.endpoint = "/managed_volume/mv-f/end_snapshot" then
      Except.error "network failure"
    else if req.endpoint = "/sla_domain//assign" then
      Except.ok (GoVal.vStr "assigned")
    else Except.error "unexpected request"
  | Method.patch =>
    if req.endpoint = "/vmware/vm/vm-a" then
      Except.ok (GoVal.vStr "patched-pause")
    else if req.endpoint = "/vmware/vm/vm-p" then
      Except.ok (GoVal.vStr "patched-resume")
    else Except.error "unexpected request"

lemma beginMV_noop (T : Transport) (name mvID : String) (tr : List Request) (timeout : List Int)
    (hres : objectID T name "managedVolume" [] = (Outcome.ok mvID, tr))
    (hsum : T (getReq "internal" ("/managed_volume/" ++ mvID) (some (httpTimeout timeout))) =
      Except.ok (GoVal.vMap [("isWritable", GoVal.vBool true)])) :
    beginManagedVolumeSnapshot T name timeout =
      (Outcome.ok (GoVal.vStr (beginMVNoChangeMsg name)),
       tr ++ [getReq "internal" ("/managed_volume/" ++ mvID) (some (httpTimeout timeout))]) := by
  unfold beginManagedVolumeSnapshot
  rw [hres]
  simp only []
  rw [hsum]
  simp [goIndex]

lemma beginMV_transition (T : Transport) (name mvID : String) (tr : List Request)
    (timeout : List Int) (r : GoVal)
    (hres : objectID T name "managedVolume" [] = (Outcome.ok mvID, tr))
    (hsum : T (getReq "internal" ("/managed_volume/" ++ mvID) (some (httpTimeout timeout))) =
      Except.ok (GoVal.vMap [("isWritable", GoVal.vBool false)]))
    (hpost : T (postReq "internal" ("/managed_volume/" ++ mvID ++ "/begin_snapshot")
      (GoVal.vMap []) (some (httpTimeout timeout))) = Except.ok r) :
    beginManagedVolumeSnapshot T name timeout =
      (Outcome.ok r,
       tr ++ [getReq "internal" ("/managed_volume/" ++ mvID) (some (httpTimeout timeout)),
         postReq "internal" ("/managed_volume/" ++ mvID ++ "/begin_snapshot")
           (GoVal.vMap []) (some (httpTimeout timeout))]) := by
  unfold beginManagedVolumeSnapshot
  rw [hres]
  simp only []
  rw [hsum]
  simp only [goIndex]
  rw [hpost]
  simp

lemma endMV_noop (T : Transport) (name slaName mvID : String) (tr : List Request)
    (timeout : List Int)
    (hres : objectID T name "managedVolume" [] = (Outcome.ok mvID, tr))
    (hsum : T (getReq "internal" ("/managed_volume/" ++ mvID) (some (httpTimeout timeout))) =
      Except.ok (GoVal.vMap [("isWritable", GoVal.vBool false)])) :
    endManagedVolumeSnapshot T name slaName timeout =
      (Outcome.ok (GoVal.vStr (endMVNoChangeMsg name)),
       tr ++ [getReq "internal" ("/managed_volume/" ++ mvID) (some (httpTimeout timeout))]) := by
  unfold endManagedVolumeSnapshot
  rw [hres]
  simp only []
  rw [hsum]
  simp [goIndex]

lemma endMV_transition_current (T : Transport) (name mvID : String) (tr : List Request)
    (timeout : List Int) (r : GoVal)
    (hres : objectID T name "managedVolume" [] = (Outcome.ok mvID, tr))
    (hsum : T (getReq "internal" ("/managed_volume/" ++ mvID) (some (httpTimeout timeout))) =
      Except.ok (GoVal.vMap [("isWritable", GoVal.vBool true)]))
    (hpost : T (postReq "internal" ("/managed_volume/" ++ mvID ++ "/end_snapshot")
      (GoVal.vMap []) (some (httpTimeout timeout))) = Except.ok r) :
    endManagedVolumeSnapshot T name "current" timeout =
      (Outcome.ok r,
       tr ++ [getReq "internal" ("/managed_volume/" ++ mvID) (some (httpTimeout timeout)),
         postReq "internal" ("/managed_volume/" ++ mvID ++ "/end_snapshot")
           (GoVal.vMap []) (some (httpTimeout timeout))]) := by
  unfold endManagedVolumeSnapshot
  rw [hres]
  simp [goIndex, hsum, hpost]

lemma endMV_transition_sla (T : Transport) (name slaName mvID slaID : String)
    (tr tr2 : List Request) (timeout : List Int) (r : GoVal)
    (hs : slaName ≠ "current")
    (hres : objectID T name "managedVolume" [] = (Outcome.ok mvID, tr))
    (hsum : T (getReq "internal" ("/managed_volume/" ++ mvID) (some (httpTimeout timeout))) =
      Except.ok (GoVal.vMap [("isWritable", GoVal.vBool true)]))
    (hsla : objectID T slaName "sla" [] = (Outcome.ok slaID, tr2))
    (hpost : T (postReq "internal" ("/managed_volume/" ++ mvID ++ "/end_snapshot")
      (GoVal.vMap [("retentionConfig", GoVal.vMap [("slaId", GoVal.vStr slaID)])])
      (some (httpTimeout timeout))) = Except.ok r) :
    endManagedVolumeSnapshot T name slaName timeout =
      (Outcome.ok r,
       tr ++ [getReq "internal" ("/managed_volume/" ++ mvID) (some (httpTimeout timeout))] ++ tr2 ++
         [postReq "internal" ("/managed_volume/" ++ mvID ++ "/end_snapshot")
           (GoVal.vMap [("retentionConfig", GoVal.vMap [("slaId", GoVal.vStr slaID)])])
           (some (httpTimeout timeout))]) := by
  unfold endManagedVolumeSnapshot
  rw [hres]
  simp [goIndex, hsum, hs, hsla, hpost]

lemma pause_noop (T : Transport) (objectName vmID : String) (tr : List Request)
    (timeout : List Int)
    (hres : objectID T objectName "vmware" [] = (Outcome.ok vmID, tr))
    (hsum : T (getReq "v1" ("/vmware/vm/" ++ vmID) (some (overrideTimeout180 timeout))) =
      Except.ok (GoVal.vMap [("blackoutWindowStatus",
        GoVal.vMap [("isSnappableBlackoutActive", GoVal.vBool true)])])) :
    pauseSnapshot T objectName "vmware" timeout =
      (Outcome.ok (GoVal.vStr (pauseNoChangeMsg objectName "vmware")),
       tr ++ [getReq "v1" ("/vmware/vm/" ++ vmID) (some (overrideTimeout180 timeout))]) := by
  unfold pauseSnapshot
  rw [hres]
  simp only []
  rw [hsum]
  simp [goIndex]

lemma pause_transition (T : Transport) (objectName vmID : String) (tr : List Request)
    (timeout : List Int) (r : GoVal)
    (hres : objectID T objectName "vmware" [] = (Outcome.ok vmID, tr))
    (hsum : T (getReq "v1" ("/vmware/vm/" ++ vmID) (some (overrideTimeout180 timeout))) =
      Except.ok (GoVal.vMap [("blackoutWindowStatus",
        GoVal.vMap [("isSnappableBlackoutActive", GoVal.vBool false)])]))
    (hpatch : T (patchReq "v1" ("/vmware/vm/" ++ vmID)
      (GoVal.vMap [("isVmPaused", GoVal.vBool true)]) (some (overrideTimeout180 timeout))) =
      Except.ok r) :
    pauseSnapshot T objectName "vmware" timeout =
      (Outcome.ok r,
       tr ++ [getReq "v1" ("/vmware/vm/" ++ vmID) (some (overrideTimeout180 timeout)),
         patchReq "v1" ("/vmware/vm/" ++ vmID)
           (GoVal.vMap [("isVmPaused", GoVal.vBool true)]) (some (overrideTimeout180 timeout))]) := by
  unfold pauseSnapshot
  rw [hres]
  simp [goIndex, hsum, hpatch]

lemma resume_noop (T : Transport) (objectName vmID : String) (tr : List Request)
    (timeout : List Int)
    (hres : objectID T objectName "vmware" [] = (Outcome.ok vmID, tr))
    (hsum : T (getReq "v1" ("/vmware/vm/" ++ vmID) (some (overrideTimeout180 timeout))) =
      Except.ok (GoVal.vMap [("blackoutWindowStatus",
        GoVal.vMap [("isSnappableBlackoutActive", GoVal.vBool false)])])) :
    resumeSnapshot T objectName "vmware" timeout =
      (Outcome.ok (GoVal.vStr (resumeNoChangeMsg objectName "vmware")),
       tr ++ [getReq "v1" ("/vmware/vm/" ++ vmID) (some (overrideTimeout180 timeout))]) := by
  unfold resumeSnapshot
  rw [hres]
  simp only []
  rw [hsum]
  simp [goIndex]

lemma resume_transition (T : Transport) (objectName vmID : String) (tr : List Request)
    (timeout : List Int) (r : GoVal)
    (hres : objectID T objectName "vmware" [] = (Outcome.ok vmID, tr))
    (hsum : T (getReq "v1" ("/vmware/vm/" ++ vmID) (some (overrideTimeout180 timeout))) =
      Except.ok (GoVal.vMap [("blackoutWindowStatus",
        GoVal.vMap [("isSnappableBlackoutActive", GoVal.vBool true)])]))
    (hpatch : T (patchReq "v1" ("/vmware/vm/" ++ vmID)
      (GoVal.vMap [("isVmPaused", GoVal.vBool false)]) (some (overrideTimeout180 timeout))) =
      Except.ok r) :
    resumeSnapshot T objectName "vmware" timeout =
      (Outcome.ok r,
       tr ++ [getReq "v1" ("/vmware/vm/" ++ vmID) (some (overrideTimeout180 timeout)),
         patchReq "v1" ("/vmware/vm/" ++ vmID)
           (GoVal.vMap [("isVmPaused", GoVal.vBool false)]) (some (overrideTimeout180 timeout))]) := by
  unfold resumeSnapshot
  rw [hres]
  simp [goIndex, hsum, hpatch]

lemma onDemandVM_current (T : Transport) (objectName vmID effID href : String)
    (tr : List Request) (timeout : List Int)
    (hres : objectID T objectName "vmware" [] = (Outcome.ok vmID, tr))
    (hsum : T (getReq "v1" ("/vmware/vm/" ++ vmID) none) =
      Except.ok (GoVal.vMap [("effectiveSlaDomainId", GoVal.vStr effID)]))
    (hpost : T (postReq "v1" ("/vmware/vm/" ++ vmID ++ "/snapshot")
      (GoVal.vMap [("slaId", GoVal.vStr effID)]) (some (overrideTimeout180 timeout))) =
      Except.ok (GoVal.vMap [("links", GoVal.vArr [GoVal.vMap [("href", GoVal.vStr href)]])])) :
    onDemandSnapshotVM T objectName "vmware" "current" timeout =
      (Outcome.ok href,
       tr ++ [getReq "v1" ("/vmware/vm/" ++ vmID) none,
         postReq "v1" ("/vmware/vm/" ++ vmID ++ "/snapshot")
           (GoVal.vMap [("slaId", GoVal.vStr effID)]) (some (overrideTimeout180 timeout))]) := by
  unfold onDemandSnapshotVM
  rw [hres]
  simp [goIndex, hsum, hpost, firstLinkHref]

lemma onDemandPhysical_current (T : Transport) (hostName fileset hostOS hostID templateID
    filesetID effID href : String) (tr1 tr2 : List Request) (timeout : List Int)
    (hos : hostOS = "Linux" ∨ hostOS = "Windows")
    (hhost : objectID T hostName "physicalHost" [] = (Outcome.ok hostID, tr1))
    (htpl : objectID T fileset "filesetTemplate" [hostOS] = (Outcome.ok templateID, tr2))
    (hfs : T (getReq "v1" ("/fileset?primary_cluster_id=local&host_id=" ++ hostID ++
      "&is_relic=false&template_id=" ++ templateID) none) =
      Except.ok (GoVal.vMap [("total", GoVal.vFloat 1), ("data", GoVal.vArr
        [GoVal.vMap [("id", GoVal.vStr filesetID), ("effectiveSlaDomainId", GoVal.vStr effID)]])]))
    (hpost : T (postReq "v1" ("/fileset/" ++ filesetID ++ "/snapshot")
      (GoVal.vMap [("slaId", GoVal.vStr effID)]) (some (overrideTimeout180 timeout))) =
      Except.ok (GoVal.vMap [("links", GoVal.vArr [GoVal.vMap [("href", GoVal.vStr href)]])])) :
    onDemandSnapshotPhysical T hostName "current" fileset hostOS timeout =
      (Outcome.ok href,
       tr1 ++ tr2 ++ [getReq "v1" ("/fileset?primary_cluster_id=local&host_id=" ++ hostID ++
           "&is_relic=false&template_id=" ++ templateID) none,
         postReq "v1" ("/fileset/" ++ filesetID ++ "/snapshot")
           (GoVal.vMap [("slaId", GoVal.vStr effID)]) (some (overrideTimeout180 timeout))]) := by
  have hosb : (hostOS == "Linux" || hostOS == "Windows") = true := by
    rcases hos with h | h <;> subst h <;> rfl
  unfold onDemandSnapshotPhysical
  rw [hosb]
  simp only [Bool.true_eq_false, if_false]
  rw [hhost]
  simp only []
  rw [htpl]
  simp [goIndex, hfs, hpost, firstLinkHref]

lemma trace_of_res {T : Transport} {n t : String} {os : List String} {o : Outcome String}
    {tr : List Request} (h : objectID T n t os = (o, tr)) :
    ∀ req ∈ tr, req.method = Method.get ∧ req.timeout = none := by
  intro req hreq
  exact objectID_trace T n t os req (by rw [h]; exact hreq)

/-- C1: for every ObjectID call with a valid objectType whose list query
succeeds with a well-formed decoded response (total the float64 count of the
data entries, each entry a JSON object with string name and id fields):
exactly one entry whose relevant name field (hostname for physicalHost, name
otherwise) equal to objectName yields that entry's id with no error; zero
matching entries yield the not-found error; two or more yield the ambiguity
error, so no identifier is ever picked arbitrarily. -/
theorem claim_C1_objectID_resolution (T : Transport) (objectName objectType : String)
    (hostOS : List String) (ver ep : String) (entries : List GoVal) (q : ℚ)
    (hvalid : validObjectType objectType = true)
    (hep : objectIDEndpoint objectName objectType hostOS = Except.ok (ver, ep))
    (hq : q = (entries.length : ℚ))
    (hT : T (getReq ver ep none) =
      Except.ok (GoVal.vMap [("total", GoVal.vFloat q), ("data", GoVal.vArr entries)]))
    (hwf : entries.all (entryWF (nameField objectType)) = true) :
    (∀ i, matchingIDs (nameField objectType) objectName entries = [i] →
      objectID T objectName objectType hostOS = (Outcome.ok i, [getReq ver ep none])) ∧
    (matchingIDs (nameField objectType) objectName entries = [] →
      objectID T objectName objectType hostOS =
        (Outcome.err (notFoundMsg objectType objectName), [getReq ver ep none])) ∧
    (∀ i j rest, matchingIDs (nameField objectType) objectName entries = i :: j :: rest →
      objectID T objectName objectType hostOS =
        (Outcome.err (ambiguousMsg objectType objectName), [getReq ver ep none])) := by
  have h := objectID_eval T objectName objectType hostOS ver ep entries q hvalid hep hq hT hwf
  refine ⟨?_, ?_, ?_⟩
  · intro i hm
    rw [h, hm]
  · intro hm
    rw [h, hm]
  · intro i j rest hm
    rw [h, hm]

theorem claim_C1_witness :
    objectID Tall "vm1" "vmware" [] =
      (Outcome.ok "vm-1",
       [getReq "v1" "/vmware/vm?primary_cluster_id=local&is_relic=false&name=vm1" none]) :=
  (claim_C1_objectID_resolution Tall "vm1" "vmware" [] "v1"
      "/vmware/vm?primary_cluster_id=local&is_relic=false&name=vm1"
      [GoVal.vMap [("name", GoVal.vStr "vm1"), ("id", GoVal.vStr "vm-1")]] 1
      rfl rfl (by norm_num) rfl rfl).1 "vm-1" rfl

/-- C2 (failing input): on the concrete transport, the SLA domain Gold
resolves to the identifier sla-42, yet AssignSLA on a non-sentinel slaName
posts the assignment to the path /sla_domain//assign built from the outer
slaID that the shadowed short declaration of the source's default case left
at its zero value, not to /sla_domain/sla-42/assign as the claim requires. -/
theorem claim_C2_assignSLA_shadowed_slaID :
    (objectID Tall "Gold" "sla" []).1 = Outcome.ok "sla-42" ∧
    assignSLA Tall "vm1" "vmware" "Gold" [] =
      (Outcome.ok (GoVal.vStr "assigned"),
       [getReq "v1" "/sla_domain?primary_cluster_id=local&name=Gold" none,
        getReq "v1" "/vmware/vm?primary_cluster_id=local&is_relic=false&name=vm1" none,
        getReq "v1" "/vmware/vm/vm-1" (some 15),
        postReq "internal" "/sla_domain//assign"
          (GoVal.vMap [("managedIds", GoVal.vArr [GoVal.vStr "vm-1"])]) (some 15)]) ∧
    "/sla_domain//assign" ≠ "/sla_domain/sla-42/assign" :=
  ⟨rfl, rfl, by decide⟩

/-- C3 (failing input): on the concrete transport the end_snapshot POST for
the writable volume mvfail fails with a transport error, yet
EndManagedVolumeSnapshot returns a nil response with a nil error because the
source never checks the error of that Post call. -/
theorem claim_C3_endSnapshot_error_swallowed :
    Tall (postReq "internal" "/managed_volume/mv-f/end_snapshot" (GoVal.vMap []) (some 15)) =
      Except.error "network failure" ∧
    endManagedVolumeSnapshot Tall "mvfail" "current" [] =
      (Outcome.ok GoVal.vNull,
       [getReq "internal" "/managed_volume?is_relic=false&primary_cluster_id=local&name=mvfail" none,
        getReq "internal" "/managed_volume/mv-f" (some 15),
        postReq "internal" "/managed_volume/mv-f/end_snapshot" (GoVal.vMap []) (some 15)]) :=
  ⟨rfl, rfl⟩

/-- C4 (failing input): with a non-current slaName that resolves successfully
(Gold to sla-42), OnDemandSnapshotVM panics on the interface conversion of
the resolved identifier string to a map before issuing any snapshot POST,
instead of using the resolved identifier as the request's slaId. -/
theorem claim_C4_onDemandVM_nonCurrent_panics :
    (objectID Tall "Gold" "sla" []).1 = Outcome.ok "sla-42" ∧
    onDemandSnapshotVM Tall "vm1" "vmware" "Gold" [] =
      (Outcome.panic "interface conversion",
       [getReq "v1" "/vmware/vm?primary_cluster_id=local&is_relic=false&name=vm1" none,
        getReq "v1" "/sla_domain?primary_cluster_id=local&name=Gold" none]) :=
  ⟨rfl, rfl⟩

/-- C5 (failing input): the target SLA Gold resolves to sla-42, which equals
the effectiveSlaDomainId of the VM vm2, so the claim requires the no-op
message and no POST; the code instead compares the shadow-erased empty
slaID with the effective id, finds them different and issues the mutating
POST (to the malformed path with the empty identifier). -/
theorem claim_C5_assignSLA_noop_guard_broken :
    (objectID Tall "Gold" "sla" []).1 = Outcome.ok "sla-42" ∧
    Tall (getReq "v1" "/vmware/vm/vm-2" (some 15)) =
      Except.ok (GoVal.vMap [("configuredSlaDomainId", GoVal.vStr "conf-2"),
        ("effectiveSlaDomainId", GoVal.vStr "sla-42")]) ∧
    assignSLA Tall "vm2" "vmware" "Gold" [] =
      (Outcome.ok (GoVal.vStr "assigned"),
       [getReq "v1" "/sla_domain?primary_cluster_id=local&name=Gold" none,
        getReq "v1" "/vmware/vm?primary_cluster_id=local&is_relic=false&name=vm2" none,
        getReq "v1" "/vmware/vm/vm-2" (some 15),
        postReq "internal" "/sla_domain//assign"
          (GoVal.vMap [("managedIds", GoVal.vArr [GoVal.vStr "vm-2"])]) (some 15)]) :=
  ⟨rfl, rfl, rfl⟩

/-- C6 (failing input): the fileset list query for host1 and template fs1
returns the decoded JSON number zero (a float64) as total and an empty data
array; the guard compares that total against the Go int 0, never matches,
and OnDemandSnapshotPhysical panics indexing the empty data array instead of
failing with the host-not-assigned error. -/
theorem claim_C6_physical_zero_total_panics :
    Tall (getReq "v1" "/fileset?primary_cluster_id=local&host_id=h-1&is_relic=false&template_id=ft-1" none) =
      Except.ok (GoVal.vMap [("total", GoVal.vFloat 0), ("data", GoVal.vArr [])]) ∧
    onDemandSnapshotPhysical Tall "host1" "Gold" "fs1" "Linux" [] =
      (Outcome.panic "index out of range",
       [getReq "v1" "/host?primary_cluster_id=local&hostname=host1" none,
        getReq "v1" "/fileset_template?primary_cluster_id=local&operating_system_type=Linux&name=fs1" none,
        getReq "v1" "/fileset?primary_cluster_id=local&host_id=h-1&is_relic=false&template_id=ft-1" none]) :=
  ⟨rfl, rfl⟩

/-- C7: each of BeginManagedVolumeSnapshot, EndManagedVolumeSnapshot,
PauseSnapshot and ResumeSnapshot is a guarded transition. When the fetched
remote flag (isWritable for the volume operations, the nested
isSnappableBlackoutActive for the VM operations) already equals the target
state, the operation returns the no-op message and performs no mutating call
(every issued request is a GET); otherwise it performs exactly the mutating
call, with isVmPaused true for pause and false for resume, and returns the
raw response. -/
theorem claim_C7_guarded_transitions :
    (∀ (T : Transport) (name mvID : String) (tr : List Request) (timeout : List Int),
      objectID T name "managedVolume" [] = (Outcome.ok mvID, tr) →
      T (getReq "internal" ("/managed_volume/" ++ mvID) (some (httpTimeout timeout))) =
        Except.ok (GoVal.vMap [("isWritable", GoVal.vBool true)]) →
      beginManagedVolumeSnapshot T name timeout =
        (Outcome.ok (GoVal.vStr (beginMVNoChangeMsg name)),
         tr ++ [getReq "internal" ("/managed_volume/" ++ mvID) (some (httpTimeout timeout))]) ∧
      ∀ req ∈ tr ++ [getReq "internal" ("/managed_volume/" ++ mvID) (some (httpTimeout timeout))],
        req.method = Method.get) ∧
    (∀ (T : Transport) (name mvID : String) (tr : List Request) (timeout : List Int) (r : GoVal),
      objectID T name "managedVolume" [] = (Outcome.ok mvID, tr) →
      T (getReq "internal" ("/managed_volume/" ++ mvID) (some (httpTimeout timeout))) =
        Except.ok (GoVal.vMap [("isWritable", GoVal.vBool false)]) →
      T (postReq "internal" ("/managed_volume/" ++ mvID ++ "/begin_snapshot")
        (GoVal.vMap []) (some (httpTimeout timeout))) = Except.ok r →
      beginManagedVolumeSnapshot T name timeout =
        (Outcome.ok r,
         tr ++ [getReq "internal" ("/managed_volume/" ++ mvID) (some (httpTimeout timeout)),
           postReq "internal" ("/managed_volume/" ++ mvID ++ "/begin_snapshot")
             (GoVal.vMap []) (some (httpTimeout timeout))])) ∧
    (∀ (T : Transport) (name slaName mvID : String) (tr : List Request) (timeout : List Int),
      objectID T name "managedVolume" [] = (Outcome.ok mvID, tr) →
      T (getReq "internal" ("/managed_volume/" ++ mvID) (some (httpTimeout timeout))) =
        Except.ok (GoVal.vMap [("isWritable", GoVal.vBool false)]) →
      endManagedVolumeSnapshot T name slaName timeout =
        (Outcome.ok (GoVal.vStr (endMVNoChangeMsg name)),
         tr ++ [getReq "internal" ("/managed_volume/" ++ mvID) (some (httpTimeout timeout))]) ∧
      ∀ req ∈ tr ++ [getReq "internal" ("/managed_volume/" ++ mvID) (some (httpTimeout timeout))],
        req.method = Method.get) ∧
    (∀ (T : Transport) (name mvID : String) (tr : List Request) (timeout : List Int) (r : GoVal),
      objectID T name "managedVolume" [] = (Outcome.ok mvID, tr) →
      T (getReq "internal" ("/managed_volume/" ++ mvID) (some (httpTimeout timeout))) =
        Except.ok (GoVal.vMap [("isWritable", GoVal.vBool true)]) →
      T (postReq "internal" ("/managed_volume/" ++ mvID ++ "/end_snapshot")
        (GoVal.vMap []) (some (httpTimeout timeout))) = Except.ok r →
      endManagedVolumeSnapshot T name "current" timeout =
        (Outcome.ok r,
         tr ++ [getReq "internal" ("/managed_volume/" ++ mvID) (some (httpTimeout timeout)),
           postReq "internal" ("/managed_volume/" ++ mvID ++ "/end_snapshot")
             (GoVal.vMap []) (some (httpTimeout timeout))])) ∧
    (∀ (T : Transport) (name slaName mvID slaID : String) (tr tr2 : List Request)
        (timeout : List Int) (r : GoVal),
      slaName ≠ "current" →
      objectID T name "managedVolume" [] = (Outcome.ok mvID, tr) →
      T (getReq "internal" ("/managed_volume/" ++ mvID) (some (httpTimeout timeout))) =
        Except.ok (GoVal.vMap [("isWritable", GoVal.vBool true)]) →
      objectID T slaName "sla" [] = (Outcome.ok slaID, tr2) →
      T (postReq "internal" ("/managed_volume/" ++ mvID ++ "/end_snapshot")
        (GoVal.vMap [("retentionConfig", GoVal.vMap [("slaId", GoVal.vStr slaID)])])
        (some (httpTimeout timeout))) = Except.ok r →
      endManagedVolumeSnapshot T name slaName timeout =
        (Outcome.ok r,
         tr ++ [getReq "internal" ("/managed_volume/" ++ mvID) (some (httpTimeout timeout))] ++
           tr2 ++
           [postReq "internal" ("/managed_volume/" ++ mvID ++ "/end_snapshot")
             (GoVal.vMap [("retentionConfig", GoVal.vMap [("slaId", GoVal.vStr slaID)])])
             (some (httpTimeout timeout))])) ∧
    (∀ (T : Transport) (objectName vmID : String) (tr : List Request) (timeout : List Int),
      objectID T objectName "vmware" [] = (Outcome.ok vmID, tr) →
      T (getReq "v1" ("/vmware/vm/" ++ vmID) (some (overrideTimeout180 timeout))) =
        Except.ok (GoVal.vMap [("blackoutWindowStatus",
          GoVal.vMap [("isSnappableBlackoutActive", GoVal.vBool true)])]) →
      pauseSnapshot T objectName "vmware" timeout =
        (Outcome.ok (GoVal.vStr (pauseNoChangeMsg objectName "vmware")),
         tr ++ [getReq "v1" ("/vmware/vm/" ++ vmID) (some (overrideTimeout180 timeout))]) ∧
      ∀ req ∈ tr ++ [getReq "v1" ("/vmware/vm/" ++ vmID) (some (overrideTimeout180 timeout))],
        req.method = Method.get) ∧
    (∀ (T : Transport) (objectName vmID : String) (tr : List Request) (timeout : List Int)
        (r : GoVal),
      objectID T objectName "vmware" [] = (Outcome.ok vmID, tr) →
      T (getReq "v1" ("/vmware/vm/" ++ vmID) (some (overrideTimeout180 timeout))) =
        Except.ok (GoVal.vMap [("blackoutWindowStatus",
          GoVal.vMap [("isSnappableBlackoutActive", GoVal.vBool false)])]) →
      T (patchReq "v1" ("/vmware/vm/" ++ vmID)
        (GoVal.vMap [("isVmPaused", GoVal.vBool true)]) (some (overrideTimeout180 timeout))) =
        Except.ok r →
      pauseSnapshot T objectName "vmware" timeout =
        (Outcome.ok r,
         tr ++ [getReq "v1" ("/vmware/vm/" ++ vmID) (some (overrideTimeout180 timeout)),
           patchReq "v1" ("/vmware/vm/" ++ vmID)
             (GoVal.vMap [("isVmPaused", GoVal.vBool true)])
             (some (overrideTimeout180 timeout))])) ∧
    (∀ (T : Transport) (objectName vmID : String) (tr : List Request) (timeout : List Int),
      objectID T objectName "vmware" [] = (Outcome.ok vmID, tr) →
      T (getReq "v1" ("/vmware/vm/" ++ vmID) (some (overrideTimeout180 timeout))) =
        Except.ok (GoVal.vMap [("blackoutWindowStatus",
          GoVal.vMap [("isSnappableBlackoutActive", GoVal.vBool false)])]) →
      resumeSnapshot T objectName "vmware" timeout =
        (Outcome.ok (GoVal.vStr (resumeNoChangeMsg objectName "vmware")),
         tr ++ [getReq "v1" ("/vmware/vm/" ++ vmID) (some (overrideTimeout180 timeout))]) ∧
      ∀ req ∈ tr ++ [getReq "v1" ("/vmware/vm/" ++ vmID) (some (overrideTimeout180 timeout))],
        req.method = Method.get) ∧
    (∀ (T : Transport) (objectName vmID : String) (tr : List Request) (timeout : List Int)
        (r : GoVal),
      objectID T objectName "vmware" [] = (Outcome.ok vmID, tr) →
      T (getReq "v1" ("/vmware/vm/" ++ vmID) (some (overrideTimeout180 timeout))) =
        Except.ok (GoVal.vMap [("blackoutWindowStatus",
          GoVal.vMap [("isSnappableBlackoutActive", GoVal.vBool true)])]) →
      T (patchReq "v1" ("/vmware/vm/" ++ vmID)
        (GoVal.vMap [("isVmPaused", GoVal.vBool false)]) (some (overrideTimeout180 timeout))) =
        Except.ok r →
      resumeSnapshot T objectName "vmware" timeout =
        (Outcome.ok r,
         tr ++ [getReq "v1" ("/vmware/vm/" ++ vmID) (some (overrideTimeout180 timeout)),
           patchReq "v1" ("/vmware/vm/" ++ vmID)
             (GoVal.vMap [("isVmPaused", GoVal.vBool false)])
             (some (overrideTimeout180 timeout))])) := by
  refine ⟨?_, ?_, ?_, ?_, ?_, ?_, ?_, ?_, ?_⟩
  · intro T name mvID tr timeout hres hsum
    refine ⟨beginMV_noop T name mvID tr timeout hres hsum, ?_⟩
    intro req hreq
    rcases List.mem_append.mp hreq with hmem | hmem
    · exact (trace_of_res hres req hmem).1
    · rw [List.mem_singleton] at hmem
      subst hmem
      rfl
  · intro T name mvID tr timeout r hres hsum hpost
    exact beginMV_transition T name mvID tr timeout r hres hsum hpost
  · intro T name slaName mvID tr timeout hres hsum
    refine ⟨endMV_noop T name slaName mvID tr timeout hres hsum, ?_⟩
    intro req hreq
    rcases List.mem_append.mp hreq with hmem | hmem
    · exact (trace_of_res hres req hmem).1
    · rw [List.mem_singleton] at hmem
      subst hmem
      rfl
  · intro T name mvID tr timeout r hres hsum hpost
    exact endMV_transition_current T name mvID tr timeout r hres hsum hpost
  · intro T name slaName mvID slaID tr tr2 timeout r hs hres hsum hsla hpost
    exact endMV_transition_sla T name slaName mvID slaID tr tr2 timeout r hs hres hsum hsla hpost
  · intro T objectName vmID tr timeout hres hsum
    refine ⟨pause_noop T objectName vmID tr timeout hres hsum, ?_⟩
    intro req hreq
    rcases List.mem_append.mp hreq with hmem | hmem
    · exact (trace_of_res hres req hmem).1
    · rw [List.mem_singleton] at hmem
      subst hmem
      rfl
  · intro T objectName vmID tr timeout r hres hsum hpatch
    exact pause_transition T objectName vmID tr timeout r hres hsum hpatch
  · intro T objectName vmID tr timeout hres hsum
    refine ⟨resume_noop T objectName vmID tr timeout hres hsum, ?_⟩
    intro req hreq
    rcases List.mem_append.mp hreq with hmem | hmem
    · exact (trace_of_res hres req hmem).1
    · rw [List.mem_singleton] at hmem
      subst hmem
      rfl
  · intro T objectName vmID tr timeout r hres hsum hpatch
    exact resume_transition T objectName vmID tr timeout r hres hsum hpatch

theorem claim_C7_witness :
    (beginManagedVolumeSnapshot Tall "mvw" [] =
      (Outcome.ok (GoVal.vStr (beginMVNoChangeMsg "mvw")),
       [getReq "internal" "/managed_volume?is_relic=false&primary_cluster_id=local&name=mvw" none,
        getReq "internal" "/managed_volume/mv-w" (some 15)]) ∧
     ∀ req ∈ [getReq "internal" "/managed_volume?is_relic=false&primary_cluster_id=local&name=mvw" none,
        getReq "internal" "/managed_volume/mv-w" (some 15)], req.method = Method.get) ∧
    (beginManagedVolumeSnapshot Tall "mvr" [] =
      (Outcome.ok (GoVal.vStr "begun"),
       [getReq "internal" "/managed_volume?is_relic=false&primary_cluster_id=local&name=mvr" none,
        getReq "internal" "/managed_volume/mv-r" (some 15),
        postReq "internal" "/managed_volume/mv-r/begin_snapshot" (GoVal.vMap []) (some 15)])) ∧
    (endManagedVolumeSnapshot Tall "mvr" "Gold" [] =
      (Outcome.ok (GoVal.vStr (endMVNoChangeMsg "mvr")),
       [getReq "internal" "/managed_volume?is_relic=false&primary_cluster_id=local&name=mvr" none,
        getReq "internal" "/managed_volume/mv-r" (some 15)]) ∧
     ∀ req ∈ [getReq "internal" "/managed_volume?is_relic=false&primary_cluster_id=local&name=mvr" none,
        getReq "internal" "/managed_volume/mv-r" (some 15)], req.method = Method.get) ∧
    (endManagedVolumeSnapshot Tall "mvw" "current" [] =
      (Outcome.ok (GoVal.vStr "ended"),
       [getReq "internal" "/managed_volume?is_relic=false&primary_cluster_id=local&name=mvw" none,
        getReq "internal" "/managed_volume/mv-w" (some 15),
        postReq "internal" "/managed_volume/mv-w/end_snapshot" (GoVal.vMap []) (some 15)])) ∧
    (endManagedVolumeSnapshot Tall "mvw" "Gold" [] =
      (Outcome.ok (GoVal.vStr "ended"),
       [getReq "internal" "/managed_volume?is_relic=false&primary_cluster_id=local&name=mvw" none,
        getReq "internal" "/managed_volume/mv-w" (some 15),
        getReq "v1" "/sla_domain?primary_cluster_id=local&name=Gold" none,
        postReq "internal" "/managed_volume/mv-w/end_snapshot"
          (GoVal.vMap [("retentionConfig", GoVal.vMap [("slaId", GoVal.vStr "sla-42")])])
          (some 15)])) ∧
    (pauseSnapshot Tall "vmp" "vmware" [] =
      (Outcome.ok (GoVal.vStr (pauseNoChangeMsg "vmp" "vmware")),
       [getReq "v1" "/vmware/vm?primary_cluster_id=local&is_relic=false&name=vmp" none,
        getReq "v1" "/vmware/vm/vm-p" (some 180)]) ∧
     ∀ req ∈ [getReq "v1" "/vmware/vm?primary_cluster_id=local&is_relic=false&name=vmp" none,
        getReq "v1" "/vmware/vm/vm-p" (some 180)], req.method = Method.get) ∧
    (pauseSnapshot Tall "vma" "vmware" [] =
      (Outcome.ok (GoVal.vStr "patched-pause"),
       [getReq "v1" "/vmware/vm?primary_cluster_id=local&is_relic=false&name=vma" none,
        getReq "v1" "/vmware/vm/vm-a" (some 180),
        patchReq "v1" "/vmware/vm/vm-a"
          (GoVal.vMap [("isVmPaused", GoVal.vBool true)]) (some 180)])) ∧
    (resumeSnapshot Tall "vma" "vmware" [] =
      (Outcome.ok (GoVal.vStr (resumeNoChangeMsg "vma" "vmware")),
       [getReq "v1" "/vmware/vm?primary_cluster_id=local&is_relic=false&name=vma" none,
        getReq "v1" "/vmware/vm/vm-a" (some 180)]) ∧
     ∀ req ∈ [getReq "v1" "/vmware/vm?primary_cluster_id=local&is_relic=false&name=vma" none,
        getReq "v1" "/vmware/vm/vm-a" (some 180)], req.method = Method.get) ∧
    (resumeSnapshot Tall "vmp" "vmware" [] =
      (Outcome.ok (GoVal.vStr "patched-resume"),
       [getReq "v1" "/vmware/vm?primary_cluster_id=local&is_relic=false&name=vmp" none,
        getReq "v1" "/vmware/vm/vm-p" (some 180),
        patchReq "v1" "/vmware/vm/vm-p"
          (GoVal.vMap [("isVmPaused", GoVal.vBool false)]) (some 180)])) := by
  obtain ⟨h1, h2, h3, h4, h5, h6, h7, h8, h9⟩ := claim_C7_guarded_transitions
  exact ⟨h1 Tall "mvw" "mv-w"
      [getReq "internal" "/managed_volume?is_relic=false&primary_cluster_id=local&name=mvw" none]
      [] rfl rfl,
    h2 Tall "mvr" "mv-r"
      [getReq "internal" "/managed_volume?is_relic=false&primary_cluster_id=local&name=mvr" none]
      [] (GoVal.vStr "begun") rfl rfl rfl,
    h3 Tall "mvr" "Gold" "mv-r"
      [getReq "internal" "/managed_volume?is_relic=false&primary_cluster_id=local&name=mvr" none]
      [] rfl rfl,
    h4 Tall "mvw" "mv-w"
      [getReq "internal" "/managed_volume?is_relic=false&primary_cluster_id=local&name=mvw" none]
      [] (GoVal.vStr "ended") rfl rfl rfl,
    h5 Tall "mvw" "Gold" "mv-w" "sla-42"
      [getReq "internal" "/managed_volume?is_relic=false&primary_cluster_id=local&name=mvw" none]
      [getReq "v1" "/sla_domain?primary_cluster_id=local&name=Gold" none]
      [] (GoVal.vStr "ended") (by decide) rfl rfl rfl rfl,
    h6 Tall "vmp" "vm-p"
      [getReq "v1" "/vmware/vm?primary_cluster_id=local&is_relic=false&name=vmp" none]
      [] rfl rfl,
    h7 Tall "vma" "vm-a"
      [getReq "v1" "/vmware/vm?primary_cluster_id=local&is_relic=false&name=vma" none]
      [] (GoVal.vStr "patched-pause") rfl rfl rfl,
    h8 Tall "vma" "vm-a"
      [getReq "v1" "/vmware/vm?primary_cluster_id=local&is_relic=false&name=vma" none]
      [] rfl rfl,
    h9 Tall "vmp" "vm-p"
      [getReq "v1" "/vmware/vm?primary_cluster_id=local&is_relic=false&name=vmp" none]
      [] (GoVal.vStr "patched-resume") rfl rfl rfl⟩

/-- C8 (counterexample): the caller passes the explicit timeout 15 to
PauseSnapshot, yet the timeout-carrying transport call uses 180, not 15:
an explicit timeout equal to the base default is replaced, contradicting
the claim that an explicit caller timeout is always used. -/
theorem claim_C8_counterexample :
    (pauseSnapshot Tall "vmp" "vmware" [15]).2.map Request.timeout = [none, some 180] ∧
    (pauseSnapshot Tall "vmp" "vmware" [15]).2.map Request.timeout ≠ [none, some 15] :=
  ⟨rfl, by decide⟩

/-- C8 (amended): in PauseSnapshot, ResumeSnapshot, OnDemandSnapshotVM and
OnDemandSnapshotPhysical the caller's explicit timeout t is used by the
timeout-carrying transport calls whenever t ≠ 15; with no explicit timeout,
or with an explicit timeout of 15 (indistinguishable from the base default),
180 is used instead; the resolver's list queries and the summary fetches of
both on-demand variants carry no explicit timeout. -/
theorem claim_C8_timeout_override :
    (∀ t : Int, t ≠ 15 → overrideTimeout180 [t] = t) ∧
    overrideTimeout180 [] = 180 ∧
    overrideTimeout180 [15] = 180 ∧
    (∀ (T : Transport) (objectName vmID : String) (tr : List Request) (timeout : List Int)
        (r : GoVal),
      objectID T objectName "vmware" [] = (Outcome.ok vmID, tr) →
      T (getReq "v1" ("/vmware/vm/" ++ vmID) (some (overrideTimeout180 timeout))) =
        Except.ok (GoVal.vMap [("blackoutWindowStatus",
          GoVal.vMap [("isSnappableBlackoutActive", GoVal.vBool false)])]) →
      T (patchReq "v1" ("/vmware/vm/" ++ vmID)
        (GoVal.vMap [("isVmPaused", GoVal.vBool true)]) (some (overrideTimeout180 timeout))) =
        Except.ok r →
      ∀ req ∈ (pauseSnapshot T objectName "vmware" timeout).2,
        req.timeout = none ∨ req.timeout = some (overrideTimeout180 timeout)) ∧
    (∀ (T : Transport) (objectName vmID : String) (tr : List Request) (timeout : List Int)
        (r : GoVal),
      objectID T objectName "vmware" [] = (Outcome.ok vmID, tr) →
      T (getReq "v1" ("/vmware/vm/" ++ vmID) (some (overrideTimeout180 timeout))) =
        Except.ok (GoVal.vMap [("blackoutWindowStatus",
          GoVal.vMap [("isSnappableBlackoutActive", GoVal.vBool true)])]) →
      T (patchReq "v1" ("/vmware/vm/" ++ vmID)
        (GoVal.vMap [("isVmPaused", GoVal.vBool false)]) (some (overrideTimeout180 timeout))) =
        Except.ok r →
      ∀ req ∈ (resumeSnapshot T objectName "vmware" timeout).2,
        req.timeout = none ∨ req.timeout = some (overrideTimeout180 timeout)) ∧
    (∀ (T : Transport) (objectName vmID effID href : String) (tr : List Request)
        (timeout : List Int),
      objectID T objectName "vmware" [] = (Outcome.ok vmID, tr) →
      T (getReq "v1" ("/vmware/vm/" ++ vmID) none) =
        Except.ok (GoVal.vMap [("effectiveSlaDomainId", GoVal.vStr effID)]) →
      T (postReq "v1" ("/vmware/vm/" ++ vmID ++ "/snapshot")
        (GoVal.vMap [("slaId", GoVal.vStr effID)]) (some (overrideTimeout180 timeout))) =
        Except.ok (GoVal.vMap [("links", GoVal.vArr [GoVal.vMap [("href", GoVal.vStr href)]])]) →
      ∀ req ∈ (onDemandSnapshotVM T objectName "vmware" "current" timeout).2,
        req.timeout = none ∨ req.timeout = some (overrideTimeout180 timeout)) ∧
    (∀ (T : Transport) (hostName fileset hostOS hostID templateID filesetID effID href : String)
        (tr1 tr2 : List Request) (timeout : List Int),
      (hostOS = "Linux" ∨ hostOS = "Windows") →
      objectID T hostName "physicalHost" [] = (Outcome.ok hostID, tr1) →
      objectID T fileset "filesetTemplate" [hostOS] = (Outcome.ok templateID, tr2) →
      T (getReq "v1" ("/fileset?primary_cluster_id=local&host_id=" ++ hostID ++
        "&is_relic=false&template_id=" ++ templateID) none) =
        Except.ok (GoVal.vMap [("total", GoVal.vFloat 1), ("data", GoVal.vArr
          [GoVal.vMap [("id", GoVal.vStr filesetID),
            ("effectiveSlaDomainId", GoVal.vStr effID)]])]) →
      T (postReq "v1" ("/fileset/" ++ filesetID ++ "/snapshot")
        (GoVal.vMap [("slaId", GoVal.vStr effID)]) (some (overrideTimeout180 timeout))) =
        Except.ok (GoVal.vMap [("links", GoVal.vArr [GoVal.vMap [("href", GoVal.vStr href)]])]) →
      ∀ req ∈ (onDemandSnapshotPhysical T hostName "current" fileset hostOS timeout).2,
        req.timeout = none ∨ req.timeout = some (overrideTimeout180 timeout)) := by
  refine ⟨?_, rfl, rfl, ?_, ?_, ?_, ?_⟩
  · intro t ht
    simp [overrideTimeout180, httpTimeout, ht]
  · intro T objectName vmID tr timeout r hres hsum hpatch req hreq
    rw [pause_transition T objectName vmID tr timeout r hres hsum hpatch] at hreq
    rcases List.mem_append.mp hreq with hmem | hmem
    · exact Or.inl (trace_of_res hres req hmem).2
    · rcases List.mem_cons.mp hmem with h | h
      · subst h
        exact Or.inr rfl
      · rw [List.mem_singleton] at h
        subst h
        exact Or.inr rfl
  · intro T objectName vmID tr timeout r hres hsum hpatch req hreq
    rw [resume_transition T objectName vmID tr timeout r hres hsum hpatch] at hreq
    rcases List.mem_append.mp hreq with hmem | hmem
    · exact Or.inl (trace_of_res hres req hmem).2
    · rcases List.mem_cons.mp hmem with h | h
      · subst h
        exact Or.inr rfl
      · rw [List.mem_singleton] at h
        subst h
        exact Or.inr rfl
  · intro T objectName vmID effID href tr timeout hres hsum hpost req hreq
    rw [onDemandVM_current T objectName vmID effID href tr timeout hres hsum hpost] at hreq
    rcases List.mem_append.mp hreq with hmem | hmem
    · exact Or.inl (trace_of_res hres req hmem).2
    · rcases List.mem_cons.mp hmem with h | h
      · subst h
        exact Or.inl rfl
      · rw [List.mem_singleton] at h
        subst h
        exact Or.inr rfl
  · intro T hostName fileset hostOS hostID templateID filesetID effID href tr1 tr2 timeout
      hos hhost htpl hfs hpost req hreq
    rw [onDemandPhysical_current T hostName fileset hostOS hostID templateID filesetID effID
      href tr1 tr2 timeout hos hhost htpl hfs hpost] at hreq
    rcases List.mem_append.mp hreq with hmem | hmem
    · rcases List.mem_append.mp hmem with hmem2 | hmem2
      · exact Or.inl (trace_of_res hhost req hmem2).2
      · exact Or.inl (trace_of_res htpl req hmem2).2
    · rcases List.mem_cons.mp hmem with h | h
      · subst h
        exact Or.inl rfl
      · rw [List.mem_singleton] at h
        subst h
        exact Or.inr rfl

theorem claim_C8_witness :
    overrideTimeout180 [7] = 7 ∧
    overrideTimeout180 [] = 180 ∧
    (∀ req ∈ (pauseSnapshot Tall "vma" "vmware" [7]).2,
      req.timeout = none ∨ req.timeout = some 7) ∧
    (∀ req ∈ (onDemandSnapshotVM Tall "vmsnap" "vmware" "current" [7]).2,
      req.timeout = none ∨ req.timeout = some 7) ∧
    (∀ req ∈ (onDemandSnapshotPhysical Tall "host2" "current" "fs2" "Linux" [7]).2,
      req.timeout = none ∨ req.timeout = some 7) := by
  obtain ⟨g1, g2, g3, g4, g5, g6, g7⟩ := claim_C8_timeout_override
  exact ⟨g1 7 (by decide), g2,
    g4 Tall "vma" "vm-a"
      [getReq "v1" "/vmware/vm?primary_cluster_id=local&is_relic=false&name=vma" none]
      [7] (GoVal.vStr "patched-pause") rfl rfl rfl,
    g6 Tall "vmsnap" "vm-s" "eff-s" "job-url-vm"
      [getReq "v1" "/vmware/vm?primary_cluster_id=local&is_relic=false&name=vmsnap" none]
      [7] rfl rfl rfl,
    g7 Tall "host2" "fs2" "Linux" "h-2" "ft-2" "fsi-2" "eff-2" "job-url-fileset"
      [getReq "v1" "/host?primary_cluster_id=local&hostname=host2" none]
      [getReq "v1" "/fileset_template?primary_cluster_id=local&operating_system_type=Linux&name=fs2" none]
      [7] (Or.inl rfl) rfl rfl rfl rfl⟩

/-- C9: ObjectID with an objectType outside the six-value enumeration, and
ObjectID with objectType filesetTemplate when the hostOS qualifier is absent
or is neither Linux nor Windows, each return a descriptive error and issue
no transport call (the issued request trace is empty). -/
theorem claim_C9_usage_errors :
    (∀ (T : Transport) (objectName objectType : String) (hostOS : List String),
      validObjectType objectType = false →
      objectID T objectName objectType hostOS = (Outcome.err invalidObjectTypeMsg, [])) ∧
    (∀ (T : Transport) (objectName : String),
      objectID T objectName "filesetTemplate" [] =
        (Outcome.err "You must provide the Fileset Tempalte OS type", [])) ∧
    (∀ (T : Transport) (objectName os : String) (rest : List String),
      os ≠ "Linux" → os ≠ "Windows" →
      objectID T objectName "filesetTemplate" (os :: rest) =
        (Outcome.err "The hostOS must be either 'Linux' or 'Windows'", [])) := by
  refine ⟨?_, ?_, ?_⟩
  · intro T objectName objectType hostOS h
    unfold objectID
    rw [h]
    simp
  · intro T objectName
    rfl
  · intro T objectName os rest h1 h2
    unfold objectID
    simp [objectIDEndpoint, validObjectType, h1, h2]

theorem claim_C9_witness :
    objectID Tall "x" "widget" [] = (Outcome.err invalidObjectTypeMsg, []) ∧
    objectID Tall "fs1" "filesetTemplate" [] =
      (Outcome.err "You must provide the Fileset Tempalte OS type", []) ∧
    objectID Tall "fs1" "filesetTemplate" ["Darwin"] =
      (Outcome.err "The hostOS must be either 'Linux' or 'Windows'", []) :=
  ⟨claim_C9_usage_errors.1 Tall "x" "widget" [] rfl,
   claim_C9_usage_errors.2.1 Tall "fs1",
   claim_C9_usage_errors.2.2 Tall "fs1" "Darwin" [] (by decide) (by decide)⟩

/-- C10: for every objectType other than filesetTemplate (vmware, sla,
vmwareHost, physicalHost, managedVolume) the result of ObjectID, including
the issued transport requests, is independent of the variadic hostOS
argument: two calls differing only in hostOS agree entirely. -/
theorem claim_C10_hostOS_independence :
    ∀ (T : Transport) (objectName objectType : String) (os1 os2 : List String),
      objectType = "vmware" ∨ objectType = "sla" ∨ objectType = "vmwareHost" ∨
        objectType = "physicalHost" ∨ objectType = "managedVolume" →
      objectID T objectName objectType os1 = objectID T objectName objectType os2 := by
  intro T objectName objectType os1 os2 h
  rcases h with h | h | h | h | h <;> subst h <;> rfl

theorem claim_C10_witness :
    objectID Tall "vm1" "vmware" ["Linux", "Windows"] = objectID Tall "vm1" "vmware" [] :=
  claim_C10_hostOS_independence Tall "vm1" "vmware" ["Linux", "Windows"] [] (Or.inl rfl)

end RubrikCDM
